import Mathlib

/-!
Shallow embedding of the mod-list generator in `main.py` (function `main`,
lines 48-139, and the helpers it relies on).

The program walks `<gamedir>/Mods/*/manifest.json`, parses each manifest as
JSON-with-comments, resolves an update link from the first `UpdateKeys`
entry, classifies each mod into one of three buckets (`Framework`,
`Content`, `Regular`) using an optional config file, and renders a report.

Modelling decisions (each is a direct transcription of the Python source):
* A parsed manifest is modelled as a JSON object restricted to the fields
  the program reads (`Name`, `Version`, `Description`, `UpdateKeys`,
  `ContentPackFor`), plus a count `otherKeys` of unread keys, which only
  matters for Python dict truthiness (`if not manifest: continue`,
  line 106).
* Uncaught Python exceptions (`KeyError` at lines 109, 110 and 131) are
  modelled with `Except`; the `try/except` at lines 112-124 catches
  `IndexError`/`KeyError` inside link resolution, so link resolution is
  total.
* Logging and the diagnostic dump of an unparseable manifest (lines
  96-103) are side channels; only the log levels the claims mention are
  modelled, as values.
* The Python string builtins the program uses are modelled over the
  character list of the string: `str.lower` maps `Char.toLower` over the
  characters (the update keys involved are ASCII), `str.split(':')`
  splits at every colon keeping empty segments, `str.startswith` is the
  prefix test, and Python list membership (`in`, line 131) is
  `List.contains` (both compare elements for equality).
-/

namespace SDVMods

/-- A Python exception escaping the modelled code. Only `KeyError` can
escape `main`'s per-manifest processing (lines 109, 110, 131); all other
exceptions raised there are caught (lines 93-104, 112-124). -/
inductive PyError
  | keyError (field : String)
deriving DecidableEq, Repr

/-- A parsed `manifest.json` document, restricted to the keys `main` reads.
`ContentPackFor` records key presence only (line 128 tests `in`, the value
is never read). `otherKeys` counts keys the program does not read; it
matters only for dict truthiness. -/
structure Manifest where
  Name : Option String
  Version : Option String
  Description : Option String
  UpdateKeys : Option (List String)
  ContentPackFor : Bool
  otherKeys : Nat
deriving DecidableEq, Repr

/-- Python truthiness of the manifest dict (line 106 `if not manifest`):
an object is falsy iff it has no keys at all. -/
def Manifest.truthy (m : Manifest) : Bool :=
  m.Name.isSome || m.Version.isSome || m.Description.isSome ||
    m.UpdateKeys.isSome || m.ContentPackFor || decide (0 < m.otherKeys)

/-- The outcome of opening and JSON-decoding one `manifest.json` (lines
91-104): either a `JSONDecodeError` (after which `manifest = None` and the
loop continues) or a parsed document. -/
inductive ManifestFile
  | unparseable
  | parsed (m : Manifest)
deriving DecidableEq, Repr

/-- One entry of the report (the `mod` dict built at lines 109-110, 126). -/
structure ModRecord where
  name : String
  version : String
  description : String
  url : String
deriving DecidableEq, Repr

/-- The three report buckets (keys of `res`, line 87). -/
inductive Bucket
  | Framework
  | Content
  | Regular
deriving DecidableEq, Repr

/-- The report model `res` (line 87): three ordered sequences, appended to
at lines 129, 132, 134. -/
structure Report where
  Framework : List ModRecord
  Content : List ModRecord
  Regular : List ModRecord
deriving DecidableEq, Repr

/-- `res = {'Framework': [], 'Content': [], 'Regular': []}` (line 87). -/
def emptyReport : Report := ⟨[], [], []⟩

/-- The parsed config document, restricted to the one key `main` reads
(`config['Framework']`, line 131). `Framework := none` models a document
that parses but lacks the `Framework` key. -/
structure Config where
  Framework : Option (List String)
deriving DecidableEq, Repr

/-- `config = {'Framework': []}` (line 76), the default kept when the
config file is absent or unparseable. -/
def defaultConfig : Config := { Framework := some [] }

/-- What the filesystem holds at the config path: no file, a file that
raises `JSONDecodeError`, or a file parsing to a document. -/
inductive ConfigSource
  | absent
  | invalid
  | valid (c : Config)
deriving DecidableEq, Repr

/-- Log levels of the `logging` module used by `main`. `logger.exception`
(lines 83, 103) logs at error level. -/
inductive LogLevel
  | debug
  | info
  | warning
  | error
  | critical
deriving DecidableEq, Repr

/-- Lines 76-85: the config is the default unless the file exists and
parses; a missing file warns (line 85), a `JSONDecodeError` logs at error
level via `logger.exception` (line 83); neither failure propagates. -/
def loadConfig : ConfigSource → Config × List LogLevel
  | .absent => (defaultConfig, [.warning])
  | .invalid => (defaultConfig, [.error])
  | .valid c => (c, [])

/-- Python `str.lower` (line 113): lower-cases every character (the
modelled keys are ASCII, where `Char.toLower` agrees with Python). -/
def pyLower (s : String) : String := ⟨s.data.map Char.toLower⟩

/-- Splits a character list at every `':'`, keeping empty segments, with
`acc` the (reversed) characters of the current segment. -/
def splitColonAux (acc : List Char) : List Char → List (List Char)
  | [] => [acc.reverse]
  | c :: cs =>
    if c = ':' then acc.reverse :: splitColonAux [] cs
    else splitColonAux (c :: acc) cs

/-- Python `str.split(':')` (lines 115, 117, 119): splits at every colon,
keeping empty segments (`''.split(':') == ['']`). -/
def pySplitColon (s : String) : List String :=
  (splitColonAux [] s.data).map fun l => ⟨l⟩

/-- Python `s.startswith(pre)` (lines 114, 116, 118). -/
def pyStartsWith (s pre : String) : Bool := pre.data.isPrefixOf s.data

/-- Lines 113-121 applied to the first update key `k`: lower-case it, then
try the three providers in order; on a match, `split(':')[1]` fills the
template (a missing index raises `IndexError`, caught at line 122 where
`mod_link` becomes `''`); with no matching provider the lowered key is kept
unchanged as `mod_link` (the `else` at line 120 only logs). -/
def resolveKey (k : String) : String :=
  let mod_link := pyLower k
  if pyStartsWith mod_link "chucklefish" then
    match (pySplitColon mod_link)[1]? with
    | some id => "https://community.playstarbound.com/resources/" ++ id ++ "/"
    | none => ""
  else if pyStartsWith mod_link "nexus" then
    match (pySplitColon mod_link)[1]? with
    | some id => "https://www.nexusmods.com/stardewvalley/mods/" ++ id
    | none => ""
  else if pyStartsWith mod_link "github" then
    match (pySplitColon mod_link)[1]? with
    | some id => "https://github.com/" ++ id ++ "/releases"
    | none => ""
  else mod_link

/-- Lines 112-124: `manifest['UpdateKeys'][0]` raises `KeyError` when the
key is absent and `IndexError` when the list is empty; both are caught at
line 122 and give `mod_link = ''`. Otherwise the first key is resolved. -/
def resolveLink (m : Manifest) : String :=
  match m.UpdateKeys with
  | none => ""
  | some [] => ""
  | some (k :: _) => resolveKey k

/-- The three `startswith` tests of lines 114, 116, 118 on an
already-lowered key. -/
def knownProvider (s : String) : Bool :=
  pyStartsWith s "chucklefish" || pyStartsWith s "nexus" || pyStartsWith s "github"

/-- Lines 106-134 for one loaded manifest, reduced to its observable
outcome: `error` for an uncaught `KeyError`, `ok none` when nothing is
appended (decode failure or falsy document, lines 104-107), and
`ok (some (b, r))` when record `r` is appended to bucket `b`. The order of
the field accesses follows the source: `manifest['Name']` (line 109), then
`manifest['Version']` (line 109), then link resolution (112-124), then
classification (128-134) where `config['Framework']` (line 131) is read
only when `ContentPackFor` is absent. -/
def stepOutcome (config : Config) : ManifestFile → Except PyError (Option (Bucket × ModRecord))
  | .unparseable => .ok none
  | .parsed m =>
    if m.truthy = false then .ok none
    else
      match m.Name with
      | none => .error (.keyError "Name")
      | some name =>
        match m.Version with
        | none => .error (.keyError "Version")
        | some version =>
          let md : ModRecord :=
            { name := name, version := version,
              description := m.Description.getD "???", url := resolveLink m }
          if m.ContentPackFor then .ok (some (.Content, md))
          else
            match config.Framework with
            | none => .error (.keyError "Framework")
            | some fw =>
              .ok (some (if fw.contains name then .Framework else .Regular, md))

/-- Appending a record to the chosen bucket (lines 129, 132, 134). -/
def pushBucket (res : Report) : Bucket → ModRecord → Report
  | .Framework, r => { res with Framework := res.Framework ++ [r] }
  | .Content, r => { res with Content := res.Content ++ [r] }
  | .Regular, r => { res with Regular := res.Regular ++ [r] }

/-- Applies one manifest's outcome to the accumulated report. -/
def applyOutcome (res : Report) : Option (Bucket × ModRecord) → Report
  | none => res
  | some (b, r) => pushBucket res b r

/-- One iteration of the loop at lines 89-134 on accumulated report `res`:
an uncaught `KeyError` aborts, otherwise the outcome is applied. -/
def processManifest (config : Config) (mf : ManifestFile) (res : Report) :
    Except PyError Report :=
  (stepOutcome config mf).map (applyOutcome res)

/-- The loop at lines 89-134 starting from report `res`, over the manifest
files in discovery order. -/
def scanFrom (config : Config) (res : Report) (files : List ManifestFile) :
    Except PyError Report :=
  files.foldlM (fun r mf => processManifest config mf r) res

/-- The whole scan (lines 87-134): the loop from the empty report. -/
def scan (config : Config) (files : List ManifestFile) : Except PyError Report :=
  scanFrom config emptyReport files

/-- Python truthiness of a `pathlib.Path` value. `Path` defines no
`__bool__`/`__len__`, so every `Path` object is truthy, whether or not a
file exists at that path. -/
def pathTruthy (_p : String) : Bool := true

/-- Lines 68-74 as written: `if not (gamedir / 'Stardew Valley.exe')` and
`if not (gamedir / 'StardewModdingAPI.exe')`. The tests apply `not` to the
`Path` objects themselves, so the existence of the two marker files
(passed here as `_sdvExists` and `_smapiExists`) is never consulted. -/
def installationCheckHalts (gamedir : String) (_sdvExists _smapiExists : Bool) : Bool :=
  !pathTruthy (gamedir ++ "/Stardew Valley.exe") ||
    !pathTruthy (gamedir ++ "/StardewModdingAPI.exe")

/-- How a run of `main` ends: `exit(1)` at line 70/74, an uncaught
exception, or normal completion with the report handed to the renderer. -/
inductive MainResult
  | halted (exitCode : Nat)
  | crashed (e : PyError)
  | completed (rep : Report)
deriving DecidableEq, Repr

/-- `main` (lines 66-138) over its modelled inputs: the marker checks
(68-74), config loading (76-85), then the scan; rendering (136-138)
consumes the completed report and is external. -/
def runMain (gamedir : String) (sdvExists smapiExists : Bool)
    (cfgSrc : ConfigSource) (files : List ManifestFile) : MainResult :=
  if installationCheckHalts gamedir sdvExists smapiExists then .halted 1
  else
    match scan (loadConfig cfgSrc).1 files with
    | .error e => .crashed e
    | .ok rep => .completed rep

/-- The records a succeeding scan places in bucket `b`, read off file by
file in discovery order. -/
def bucketRecords (config : Config) (b : Bucket) (files : List ManifestFile) :
    List ModRecord :=
  files.filterMap fun mf =>
    match stepOutcome config mf with
    | .ok (some (b', r)) => if b' = b then some r else none
    | _ => none

/-! ### Helper lemmas -/

theorem pushBucket_list_Framework (res : Report) (b : Bucket) (r : ModRecord) :
    (pushBucket res b r).Framework =
      res.Framework ++ (if b = .Framework then [r] else []) := by
  cases b <;> simp [pushBucket]

theorem pushBucket_list_Content (res : Report) (b : Bucket) (r : ModRecord) :
    (pushBucket res b r).Content =
      res.Content ++ (if b = .Content then [r] else []) := by
  cases b <;> simp [pushBucket]

theorem pushBucket_list_Regular (res : Report) (b : Bucket) (r : ModRecord) :
    (pushBucket res b r).Regular =
      res.Regular ++ (if b = .Regular then [r] else []) := by
  cases b <;> simp [pushBucket]

theorem stepOutcome_of_fields (config : Config) (m : Manifest) (nm vr : String)
    (hn : m.Name = some nm) (hv : m.Version = some vr) :
    stepOutcome config (.parsed m) =
      (if m.ContentPackFor then
        .ok (some (.Content, ⟨nm, vr, m.Description.getD "???", resolveLink m⟩))
      else
        match config.Framework with
        | none => .error (.keyError "Framework")
        | some fw =>
          .ok (some (if fw.contains nm then .Framework else .Regular,
            ⟨nm, vr, m.Description.getD "???", resolveLink m⟩))) := by
  have ht : m.truthy = true := by simp [Manifest.truthy, hn]
  simp [stepOutcome, ht, hn, hv]

theorem scanFrom_step (config : Config) (res : Report) (mf : ManifestFile)
    (files : List ManifestFile) (o : Option (Bucket × ModRecord))
    (h : stepOutcome config mf = .ok o) :
    scanFrom config res (mf :: files) = scanFrom config (applyOutcome res o) files := by
  simp only [scanFrom, List.foldlM_cons, processManifest, h, Except.map]
  rfl

theorem scanFrom_abort (config : Config) (res : Report) (mf : ManifestFile)
    (files : List ManifestFile) (e : PyError)
    (h : stepOutcome config mf = .error e) :
    scanFrom config res (mf :: files) = .error e := by
  simp only [scanFrom, List.foldlM_cons, processManifest, h, Except.map]
  rfl

theorem scanFrom_ok_buckets (config : Config) (files : List ManifestFile) :
    ∀ res rep : Report, scanFrom config res files = .ok rep →
      rep.Framework = res.Framework ++ bucketRecords config .Framework files ∧
      rep.Content = res.Content ++ bucketRecords config .Content files ∧
      rep.Regular = res.Regular ++ bucketRecords config .Regular files := by
  induction files with
  | nil =>
    intro res rep h
    simp [scanFrom, pure, Except.pure] at h
    subst h
    simp [bucketRecords]
  | cons mf files ih =>
    intro res rep h
    cases hstep : stepOutcome config mf with
    | error e => rw [scanFrom_abort config res mf files e hstep] at h; exact absurd h (by simp)
    | ok o =>
      rw [scanFrom_step config res mf files o hstep] at h
      rcases o with _ | ⟨b', r⟩
      · have hb : ∀ b, bucketRecords config b (mf :: files) = bucketRecords config b files := by
          intro b; simp [bucketRecords, List.filterMap_cons, hstep]
        rcases ih res rep (by simpa [applyOutcome] using h) with ⟨h1, h2, h3⟩
        exact ⟨by rw [h1, hb], by rw [h2, hb], by rw [h3, hb]⟩
      · have hb : ∀ b, bucketRecords config b (mf :: files) =
            (if b' = b then [r] else []) ++ bucketRecords config b files := by
          intro b
          by_cases hb' : b' = b <;> simp [bucketRecords, List.filterMap_cons, hstep, hb']
        rcases ih (pushBucket res b' r) rep (by simpa [applyOutcome] using h) with ⟨h1, h2, h3⟩
        refine ⟨?_, ?_, ?_⟩
        · rw [h1, pushBucket_list_Framework, hb, List.append_assoc]
        · rw [h2, pushBucket_list_Content, hb, List.append_assoc]
        · rw [h3, pushBucket_list_Regular, hb, List.append_assoc]

/-! ### Claims -/

/-- C1, counterexample: a manifest that decodes successfully but lacks
`Name` (here `{"Version": "1.0"}`) is not treated as a per-descriptor
parse failure: line 109 raises an uncaught `KeyError` that aborts the
whole scan, so the following well-formed manifest is never processed. Had
the first manifest instead been skipped, as the claim states, the scan
would have completed with the second mod's record (second conjunct). -/
theorem missing_required_field_cex :
    scan defaultConfig
      [.parsed ⟨none, some "1.0", none, none, false, 0⟩,
       .parsed ⟨some "B", some "2.0", none, none, false, 0⟩] =
      .error (.keyError "Name") ∧
    scan defaultConfig [.parsed ⟨some "B", some "2.0", none, none, false, 0⟩] =
      .ok ⟨[], [], [⟨"B", "2.0", "???", ""⟩]⟩ :=
  ⟨rfl, rfl⟩

/-- C1, amended: a descriptor document that parses successfully to a
non-empty object but lacks `Name` or `Version` contributes zero
`ModRecord`s, but instead of being handled as a `ParseFailure` for that
descriptor only, the access `manifest['Name']` / `manifest['Version']`
(line 109) raises an uncaught `KeyError` that aborts the entire scan;
only a document that parses to an empty (falsy) object is skipped with
the scan continuing. -/
theorem missing_required_field_aborts (m : Manifest) (config : Config)
    (ht : m.truthy = true) (h : m.Name = none ∨ m.Version = none)
    (res : Report) (rest : List ManifestFile) :
    ∃ k, processManifest config (.parsed m) res = .error (.keyError k) ∧
      scanFrom config res (.parsed m :: rest) = .error (.keyError k) := by
  have hstep : ∃ k, stepOutcome config (.parsed m) = .error (.keyError k) := by
    rcases h with h | h
    · exact ⟨"Name", by simp [stepOutcome, ht, h]⟩
    · cases hn : m.Name with
      | none => exact ⟨"Name", by simp [stepOutcome, ht, hn]⟩
      | some name => exact ⟨"Version", by simp [stepOutcome, ht, hn, h]⟩
  obtain ⟨k, hk⟩ := hstep
  refine ⟨k, ?_, scanFrom_abort config res _ rest _ hk⟩
  simp [processManifest, hk, Except.map]

/-- C1, witness for `missing_required_field_aborts` at the manifest
`{"Version": "1.0"}`. -/
theorem missing_required_field_aborts_witness :
    ∃ k, processManifest defaultConfig
        (.parsed ⟨none, some "1.0", none, none, false, 0⟩) emptyReport =
        .error (.keyError k) ∧
      scanFrom defaultConfig emptyReport
        [.parsed ⟨none, some "1.0", none, none, false, 0⟩] =
        .error (.keyError k) :=
  missing_required_field_aborts ⟨none, some "1.0", none, none, false, 0⟩
    defaultConfig (by decide) (Or.inl rfl) emptyReport []

/-- C2, code bug: lines 68 and 72 test `not (gamedir / '...exe')`, the
truthiness of a `pathlib.Path` object, which is always true, instead of
the existence of the marker file. The check therefore never fires: even
when both marker files are absent (`sdvExists = smapiExists = false`) the
condition is `false`, `exit(1)` is unreachable, and `main` always
proceeds to read the config and scan the descriptors. The spec's claim
that a root missing a marker halts with a nonzero exit before any
descriptor is read contradicts the code; the log messages at lines 69 and
73 show the intent was an existence check, so the code is the slip. -/
theorem marker_check_never_halts (gamedir : String) (sdvExists smapiExists : Bool)
    (cfgSrc : ConfigSource) (files : List ManifestFile) :
    installationCheckHalts gamedir sdvExists smapiExists = false ∧
    runMain gamedir sdvExists smapiExists cfgSrc files =
      (match scan (loadConfig cfgSrc).1 files with
       | .error e => MainResult.crashed e
       | .ok rep => MainResult.completed rep) :=
  ⟨rfl, rfl⟩

/-- C3, counterexample: for the update key `Foo:123`, whose provider
prefix matches none of the three known providers, the `else` branch at
lines 120-121 only logs — `mod_link` keeps the lowered key, so the
record is produced with `url = "foo:123"`, not the empty string the
claim requires. -/
theorem unknown_provider_url_cex :
    scan defaultConfig
      [.parsed ⟨some "A", some "1.0", none, some ["Foo:123"], false, 0⟩] =
      .ok ⟨[], [], [⟨"A", "1.0", "???", "foo:123"⟩]⟩ ∧
    ("foo:123" : String) ≠ "" :=
  ⟨rfl, by decide⟩

/-- C3, amended: for every manifest with `Name` and `Version` present the
`ModRecord` is still produced — appended to exactly one bucket — and the
scan continues, whatever the update key; `url` is the empty string when
`UpdateKeys` is missing, empty, or its first entry has a recognized
provider prefix but no `:` delimiter, while for an unrecognized provider
prefix `url` is the lower-cased first update key, not the empty string. -/
theorem link_failure_fallback (m : Manifest) (fw : List String) (res : Report)
    (nm vr : String) (hn : m.Name = some nm) (hv : m.Version = some vr) :
    (∃ b, processManifest ⟨some fw⟩ (.parsed m) res =
        .ok (pushBucket res b ⟨nm, vr, m.Description.getD "???", resolveLink m⟩)) ∧
    (m.UpdateKeys = none → resolveLink m = "") ∧
    (m.UpdateKeys = some [] → resolveLink m = "") ∧
    (∀ k rest, m.UpdateKeys = some (k :: rest) → knownProvider (pyLower k) = false →
      resolveLink m = pyLower k) ∧
    (∀ k rest, m.UpdateKeys = some (k :: rest) → knownProvider (pyLower k) = true →
      (pySplitColon (pyLower k))[1]? = none → resolveLink m = "") := by
  have hso := stepOutcome_of_fields ⟨some fw⟩ m nm vr hn hv
  refine ⟨?_, ?_, ?_, ?_, ?_⟩
  · by_cases hc : m.ContentPackFor
    · exact ⟨.Content, by simp [processManifest, hso, hc, applyOutcome, Except.map]⟩
    · by_cases hf : nm ∈ fw
      · exact ⟨.Framework, by simp [processManifest, hso, hc, hf, applyOutcome, Except.map]⟩
      · exact ⟨.Regular, by simp [processManifest, hso, hc, hf, applyOutcome, Except.map]⟩
  · intro hu; simp [resolveLink, hu]
  · intro hu; simp [resolveLink, hu]
  · intro k rest hu hkp
    simp only [knownProvider, Bool.or_eq_false_iff] at hkp
    simp [resolveLink, hu, resolveKey, hkp.1.1, hkp.1.2, hkp.2]
  · intro k rest hu hkp hsplit
    by_cases h1 : pyStartsWith (pyLower k) "chucklefish"
    · simp [resolveLink, hu, resolveKey, h1, hsplit]
    · by_cases h2 : pyStartsWith (pyLower k) "nexus"
      · simp [resolveLink, hu, resolveKey, h1, h2, hsplit]
      · by_cases h3 : pyStartsWith (pyLower k) "github"
        · simp [resolveLink, hu, resolveKey, h1, h2, h3, hsplit]
        · simp [knownProvider, h1, h2, h3] at hkp

/-- C3, witness for `link_failure_fallback` at a manifest whose single
update key `Foo` has an unrecognized provider prefix and no delimiter. -/
theorem link_failure_fallback_witness :
    ∃ b, processManifest ⟨some []⟩
        (.parsed ⟨some "A", some "1", none, some ["Foo"], false, 0⟩) emptyReport =
      .ok (pushBucket emptyReport b ⟨"A", "1", "???", "foo"⟩) := by
  obtain ⟨b, hb⟩ := (link_failure_fallback ⟨some "A", some "1", none, some ["Foo"], false, 0⟩
    [] emptyReport "A" "1" rfl rfl).1
  refine ⟨b, ?_⟩
  rw [hb]
  rfl

/-- C4: for a manifest with `Name` and `Version` present, the record goes
to `Content` whenever the `ContentPackFor` key is present (line 128),
regardless of the override list; otherwise to `Framework` exactly when its
`Name` is in the config's `Framework` list (line 131), and to `Regular`
otherwise (lines 133-134). -/
theorem classification_rule (m : Manifest) (fw : List String) (res : Report)
    (nm vr : String) (hn : m.Name = some nm) (hv : m.Version = some vr) :
    processManifest ⟨some fw⟩ (.parsed m) res =
      .ok (pushBucket res
        (if m.ContentPackFor then .Content
         else if fw.contains nm then .Framework else .Regular)
        ⟨nm, vr, m.Description.getD "???", resolveLink m⟩) := by
  have hso := stepOutcome_of_fields ⟨some fw⟩ m nm vr hn hv
  by_cases hc : m.ContentPackFor
  · simp [processManifest, hso, hc, applyOutcome, Except.map]
  · by_cases hf : nm ∈ fw
    · simp [processManifest, hso, hc, hf, applyOutcome, Except.map]
    · simp [processManifest, hso, hc, hf, applyOutcome, Except.map]

/-- C4, witness for `classification_rule`: a manifest with
`ContentPackFor` present whose `Name` is also in the override list lands
in `Content`. -/
theorem classification_rule_witness :
    processManifest ⟨some ["A"]⟩
        (.parsed ⟨some "A", some "1", none, none, true, 0⟩) emptyReport =
      .ok (pushBucket emptyReport .Content ⟨"A", "1", "???", ""⟩) := by
  have h := classification_rule ⟨some "A", some "1", none, none, true, 0⟩
    ["A"] emptyReport "A" "1" rfl rfl
  rw [h]
  rfl

/-- C5: the three providers of lines 114-119 resolve to their URL
templates filled with the portion of the key after the delimiter; the
provider prefix is matched case-insensitively because the whole key is
lower-cased first (line 113). -/
theorem resolve_known_providers :
    resolveKey "nexus:1234" = "https://www.nexusmods.com/stardewvalley/mods/1234" ∧
    resolveKey "github:owner/repo" = "https://github.com/owner/repo/releases" ∧
    resolveKey "chucklefish:42" = "https://community.playstarbound.com/resources/42/" ∧
    resolveKey "NeXuS:1234" = "https://www.nexusmods.com/stardewvalley/mods/1234" ∧
    resolveKey "GitHub:owner/repo" = "https://github.com/owner/repo/releases" ∧
    resolveKey "Chucklefish:42" = "https://community.playstarbound.com/resources/42/" ∧
    resolveLink ⟨some "A", some "1", none, some ["nexus:1234"], false, 0⟩ =
      "https://www.nexusmods.com/stardewvalley/mods/1234" :=
  ⟨rfl, rfl, rfl, rfl, rfl, rfl, rfl⟩

/-- C6, counterexample: the id substituted into the template is not the
portion of the key after its first delimiter taken verbatim. Line 113
lower-cases the whole key, id included, so `github:Owner/Repo` yields the
lowered id `owner/repo`; and `split(':')[1]` takes the segment between
the first and second colon, so `nexus:12:34` yields `12`, not `12:34`. -/
theorem id_not_verbatim_cex :
    resolveKey "github:Owner/Repo" ≠ "https://github.com/Owner/Repo/releases" ∧
    resolveKey "github:Owner/Repo" = "https://github.com/owner/repo/releases" ∧
    resolveKey "nexus:12:34" ≠ "https://www.nexusmods.com/stardewvalley/mods/12:34" ∧
    resolveKey "nexus:12:34" = "https://www.nexusmods.com/stardewvalley/mods/12" := by
  refine ⟨?_, rfl, ?_, rfl⟩ <;> decide

/-- C6, amended: for a key with a recognized provider prefix, the id
substituted into the URL template is the segment of the *lower-cased* key
between its first and second `:` (Python `split(':')[1]`): the id is
lower-cased along with the whole key, anything after a second delimiter
is dropped, and no other normalization is applied. -/
theorem id_is_lowered_second_segment (k id : String)
    (hid : (pySplitColon (pyLower k))[1]? = some id) :
    (pyStartsWith (pyLower k) "chucklefish" = true →
      resolveKey k = "https://community.playstarbound.com/resources/" ++ id ++ "/") ∧
    (pyStartsWith (pyLower k) "chucklefish" = false →
      pyStartsWith (pyLower k) "nexus" = true →
      resolveKey k = "https://www.nexusmods.com/stardewvalley/mods/" ++ id) ∧
    (pyStartsWith (pyLower k) "chucklefish" = false →
      pyStartsWith (pyLower k) "nexus" = false →
      pyStartsWith (pyLower k) "github" = true →
      resolveKey k = "https://github.com/" ++ id ++ "/releases") := by
  refine ⟨fun h1 => ?_, fun h1 h2 => ?_, fun h1 h2 h3 => ?_⟩
  · simp [resolveKey, h1, hid]
  · simp [resolveKey, h1, h2, hid]
  · simp [resolveKey, h1, h2, h3, hid]

/-- C6, witness for `id_is_lowered_second_segment` at the mixed-case key
`Nexus:AbC`, whose id comes out lower-cased. -/
theorem id_is_lowered_second_segment_witness :
    resolveKey "Nexus:AbC" = "https://www.nexusmods.com/stardewvalley/mods/abc" := by
  have h := (id_is_lowered_second_segment "Nexus:AbC" "abc" rfl).2.1 rfl rfl
  rw [h]
  rfl

/-- C7: the config loader never propagates a failure. When the file is
absent (line 84) the default `{'Framework': []}` — the empty override
set — is kept with a warning-level diagnostic; when it exists but raises
`JSONDecodeError` (line 82) the default is kept and `logger.exception`
logs at error level; in both cases `main` goes on to scan with no
overrides. -/
theorem config_failure_recovers (src : ConfigSource)
    (h : src = .absent ∨ src = .invalid) :
    (loadConfig src).1 = defaultConfig ∧
    (loadConfig src).2 =
      (if src = .absent then [LogLevel.warning] else [LogLevel.error]) ∧
    (∀ gamedir sdv smapi files,
      runMain gamedir sdv smapi src files =
        (match scan defaultConfig files with
         | .error e => MainResult.crashed e
         | .ok rep => MainResult.completed rep)) := by
  rcases h with h | h <;> subst h <;> exact ⟨rfl, rfl, fun _ _ _ _ => rfl⟩

/-- C7, witness for `config_failure_recovers` on an unparseable config
file. -/
theorem config_failure_recovers_witness :
    (loadConfig .invalid).1 = defaultConfig ∧
    (loadConfig .invalid).2 = [LogLevel.error] := by
  have h := config_failure_recovers .invalid (Or.inr rfl)
  exact ⟨h.1, h.2.1⟩

/-- C8: invariant of the report model for every scan that runs to
completion. Each bucket of the final report is exactly the sequence of
records whose per-manifest outcome names that bucket, read off in
discovery order (so each produced record lies in exactly one of the three
sequences, and order is preserved), and a manifest that fails to decode
has outcome `ok none`: it contributes zero records and appears in no
sequence. -/
theorem report_bucket_invariant (config : Config) (files : List ManifestFile)
    (rep : Report) (h : scan config files = .ok rep) :
    rep.Framework = bucketRecords config .Framework files ∧
    rep.Content = bucketRecords config .Content files ∧
    rep.Regular = bucketRecords config .Regular files ∧
    stepOutcome config .unparseable = .ok none := by
  obtain ⟨h1, h2, h3⟩ := scanFrom_ok_buckets config files emptyReport rep h
  exact ⟨by simpa [emptyReport] using h1, by simpa [emptyReport] using h2,
    by simpa [emptyReport] using h3, rfl⟩

/-- C8, witness for `report_bucket_invariant` on a scan of one
unparseable and one well-formed manifest. -/
theorem report_bucket_invariant_witness :
    (⟨[], [], [⟨"B", "2", "???", ""⟩]⟩ : Report).Framework =
      bucketRecords defaultConfig .Framework
        [.unparseable, .parsed ⟨some "B", some "2", none, none, false, 0⟩] ∧
    (⟨[], [], [⟨"B", "2", "???", ""⟩]⟩ : Report).Content =
      bucketRecords defaultConfig .Content
        [.unparseable, .parsed ⟨some "B", some "2", none, none, false, 0⟩] ∧
    (⟨[], [], [⟨"B", "2", "???", ""⟩]⟩ : Report).Regular =
      bucketRecords defaultConfig .Regular
        [.unparseable, .parsed ⟨some "B", some "2", none, none, false, 0⟩] ∧
    stepOutcome defaultConfig .unparseable = .ok none :=
  report_bucket_invariant defaultConfig
    [.unparseable, .parsed ⟨some "B", some "2", none, none, false, 0⟩]
    ⟨[], [], [⟨"B", "2", "???", ""⟩]⟩ rfl

/-- C9: the scan is deterministic. In this embedding the scan is a pure
function of the configuration and the discovered manifest files — the
loop keeps no other state — so two runs over the same unchanged directory
tree and configuration produce identical reports, with the same records,
values and ordering in all three sequences. -/
theorem scan_deterministic (config₁ config₂ : Config)
    (files₁ files₂ : List ManifestFile)
    (hc : config₁ = config₂) (hf : files₁ = files₂) :
    scan config₁ files₁ = scan config₂ files₂ ∧
    ∀ gamedir sdv smapi src,
      runMain gamedir sdv smapi src files₁ = runMain gamedir sdv smapi src files₂ := by
  subst hc
  subst hf
  exact ⟨rfl, fun _ _ _ _ => rfl⟩

/-- C9, witness for `scan_deterministic` on a one-manifest tree. -/
theorem scan_deterministic_witness :
    scan defaultConfig [ManifestFile.unparseable] =
      scan defaultConfig [ManifestFile.unparseable] :=
  (scan_deterministic defaultConfig defaultConfig
    [ManifestFile.unparseable] [ManifestFile.unparseable] rfl rfl).1

/-- C10: if the config file exists and parses to a document lacking the
`Framework` key (`Config.Framework = none`, e.g. an empty JSON object),
the first successfully parsed non-empty manifest without `ContentPackFor`
reaches `config['Framework']` at line 131, which raises an uncaught
`KeyError` aborting the entire scan — no fallback to an empty override
set exists on this path. Manifests before it with a benign outcome
(skipped, or classified without consulting the override list) do not
prevent the crash. -/
theorem missing_framework_key_aborts (m : Manifest) (nm vr : String)
    (hn : m.Name = some nm) (hv : m.Version = some vr)
    (hcp : m.ContentPackFor = false)
    (pre post : List ManifestFile)
    (hpre : ∀ mf ∈ pre, ∃ o, stepOutcome ⟨none⟩ mf = .ok o)
    (gamedir : String) (sdv smapi : Bool) :
    scan ⟨none⟩ (pre ++ .parsed m :: post) = .error (.keyError "Framework") ∧
    runMain gamedir sdv smapi (.valid ⟨none⟩) (pre ++ .parsed m :: post) =
      .crashed (.keyError "Framework") := by
  have hstep : stepOutcome ⟨none⟩ (.parsed m) = .error (.keyError "Framework") := by
    rw [stepOutcome_of_fields ⟨none⟩ m nm vr hn hv]
    simp [hcp]
  have hscan : ∀ pre' : List ManifestFile,
      (∀ mf ∈ pre', ∃ o, stepOutcome ⟨none⟩ mf = .ok o) →
      ∀ res, scanFrom ⟨none⟩ res (pre' ++ .parsed m :: post) =
        .error (.keyError "Framework") := by
    intro pre'
    induction pre' with
    | nil => intro _ res; exact scanFrom_abort _ res _ post _ hstep
    | cons mf pre' ih =>
      intro hpre' res
      obtain ⟨o, ho⟩ := hpre' mf (List.mem_cons_self mf pre')
      rw [List.cons_append, scanFrom_step ⟨none⟩ res mf _ o ho]
      exact ih (fun mf' hmf' => hpre' mf' (List.mem_cons_of_mem _ hmf')) _
  have h2 : scan (⟨none⟩ : Config) (pre ++ .parsed m :: post) =
      .error (.keyError "Framework") := hscan pre hpre emptyReport
  refine ⟨h2, ?_⟩
  simp [runMain, loadConfig, installationCheckHalts, pathTruthy, h2]

/-- C10, witness for `missing_framework_key_aborts`: an unparseable
manifest followed by a well-formed regular manifest, scanned under a
config document with no `Framework` key. -/
theorem missing_framework_key_aborts_witness :
    scan ⟨none⟩ [ManifestFile.unparseable,
      .parsed ⟨some "A", some "1", none, none, false, 0⟩] =
      .error (.keyError "Framework") ∧
    runMain "gamedir" true true (.valid ⟨none⟩)
      [ManifestFile.unparseable, .parsed ⟨some "A", some "1", none, none, false, 0⟩] =
      .crashed (.keyError "Framework") :=
  missing_framework_key_aborts ⟨some "A", some "1", none, none, false, 0⟩
    "A" "1" rfl rfl rfl [ManifestFile.unparseable] []
    (fun mf hmf => by
      rw [List.mem_singleton] at hmf
      subst hmf
      exact ⟨none, rfl⟩) "gamedir" true true

end SDVMods
